import Mathlib

/-!
Shallow embedding of the agent rendezvous REST client
(`NodeZeroRestClient` and its constructor/methods).

Remote HTTP calls and the external rendezvous-IP derivation are modelled as
oracles: each method takes the outcome of the single remote call it issues
(`Except String payload`), and the constructor takes the asset-load outcomes
and the `RetrieveRendezvousIP` function as parameters.  The embedding also
records the diagnostic log entries each operation emits, the number of remote
calls issued, the exact arguments of every resolver invocation, and the
receiver after the call (so that frame properties are statable).
-/

namespace AgentClient

/-- The agent network config (`agent.Config`): carries the operator-declared
rendezvous IP.  `agent.Config.new` with no fields set is the empty config. -/
structure AgentNetworkConfig where
  rendezvousIP : String
deriving DecidableEq

/-- The empty agent config passed when only host declarations are present
(Go: `agent.Config.new` zero value). -/
def emptyAgentConfig : AgentNetworkConfig := ⟨""⟩

/-- A per-host network-state declaration (`v1beta1.NMStateConfig`). -/
structure NMStateConfig where
  name : String
deriving DecidableEq

/-- Go: `var emptyNMStateConfigs []*v1beta1.NMStateConfig` (nil slice). -/
def emptyNMStateConfigs : List NMStateConfig := []

/-- The agent manifests asset: carries the NMStateConfig declarations. -/
structure AgentManifests where
  nmStateConfigs : List NMStateConfig
deriving DecidableEq

/-- The install config asset: carries the SSH public key. -/
structure InstallConfig where
  sshKey : String
deriving DecidableEq

/-- Opaque identifier (`strfmt.UUID`). -/
abbrev UUID := String

/-- The relevant fields of Go's `url.URL` as set by the constructor. -/
structure URL where
  scheme : String
  host : String
  path : String
deriving DecidableEq

/-- `client.DefaultBasePath` of the assisted-service client library. -/
def DefaultBasePath : String := "/api/assisted-install/v2"

/-- Go `net.JoinHostPort`: brackets the host when it contains a colon. -/
def joinHostPort (host port : String) : String :=
  if host.data.contains ':' then "[" ++ host ++ "]:" ++ port
  else host ++ ":" ++ port

/-- The relevant field of `client.Config`: the endpoint URL. -/
structure ClientConfig where
  url : Option URL
deriving DecidableEq

/-- `NodeZeroRestClient` with its five fields.  `client` stands for the
`client.AssistedInstall` value, which is a pure function of the config it is
built from (`client.New(config)`); `ctx` carries no data in the embedding. -/
structure NodeZeroRestClient where
  client : ClientConfig
  ctx : Unit
  config : ClientConfig
  nodeZeroIP : String
  nodeSSHKey : List String
deriving DecidableEq

/-- Severity of an emitted diagnostic line (`logrus.Debug` / `logrus.Infof`). -/
inductive LogLevel where
  | debug
  | info
deriving DecidableEq

/-- One emitted diagnostic line. -/
structure LogEntry where
  level : LogLevel
  msg : String
deriving DecidableEq

/-- The Go `(value, error)` pair returned by `assetStore.Load`: the value may
be nil with a nil error (asset absent), or an error may be set. -/
structure LoadOutcome (α : Type) where
  value : Option α
  err : Option String
deriving DecidableEq

/-- Environment of `NewNodeZeroRestClient`: the asset-store creation outcome
and the three independent asset-load outcomes. -/
structure NewClientInputs where
  storeErr : Option String
  agentConfigLoad : LoadOutcome AgentNetworkConfig
  manifestsLoad : LoadOutcome AgentManifests
  installConfigLoad : LoadOutcome InstallConfig
deriving DecidableEq

/-- One invocation of `image.RetrieveRendezvousIP`, recording its arguments. -/
structure ResolverCall where
  config : AgentNetworkConfig
  nmConfigs : List NMStateConfig
deriving DecidableEq

/-- The type of `image.RetrieveRendezvousIP`: derives one IP or fails. -/
abbrev Resolver := AgentNetworkConfig → List NMStateConfig → Except String String

deriving instance DecidableEq for Except

/-- Outcome of `NewNodeZeroRestClient`: the returned `(client, error)`, the
list of resolver invocations made, and the diagnostic lines emitted. -/
structure ConstructionResult where
  result : Except String NodeZeroRestClient
  resolverCalls : List ResolverCall
  logs : List LogEntry
deriving DecidableEq

/-- The debug lines logged for failing asset loads: one per failing load,
independent of the other loads (Go: three `logrus.Debug(errors.Wrapf(...))`). -/
def loadFailureLogs (inp : NewClientInputs) : List LogEntry :=
  (match inp.agentConfigLoad.err with
   | some e => [LogEntry.mk .debug ("failed to load Agent Config: " ++ e)]
   | none => []) ++
  (match inp.manifestsLoad.err with
   | some e => [LogEntry.mk .debug ("failed to load Agent Manifests: " ++ e)]
   | none => []) ++
  (match inp.installConfigLoad.err with
   | some e => [LogEntry.mk .debug ("failed to load Install Config: " ++ e)]
   | none => [])

/-- The tail of `NewNodeZeroRestClient` after `RetrieveRendezvousIP` was
called: propagate its error, else capture the SSH key (when the install
config asset is present), build the endpoint config and the client. -/
def finishConstruction (ctx : Unit) (call : ResolverCall)
    (ipResult : Except String String) (installCfg : Option InstallConfig)
    (logs : List LogEntry) : ConstructionResult :=
  match ipResult with
  | .error e => ⟨.error e, [call], logs⟩
  | .ok ip =>
    let sshKeys : List String :=
      match installCfg with
      | some ic => [ic.sshKey]
      | none => []
    let cfg : ClientConfig :=
      ⟨some ⟨"http", joinHostPort ip "8090", DefaultBasePath⟩⟩
    ⟨.ok ⟨cfg, ctx, cfg, ip, sshKeys⟩, [call], logs⟩

/-- `NewNodeZeroRestClient`: create the asset store, attempt all three asset
loads, log each failure, abort when any load failed; then branch on the
presence of the agent config and the manifests to call the resolver (or abort
when both are absent), and finish construction. -/
def NewNodeZeroRestClient (ctx : Unit) (inp : NewClientInputs)
    (resolver : Resolver) : ConstructionResult :=
  match inp.storeErr with
  | some e => ⟨.error ("failed to create asset store: " ++ e), [], []⟩
  | none =>
    let logs := loadFailureLogs inp
    if inp.agentConfigLoad.err.isSome || inp.manifestsLoad.err.isSome
        || inp.installConfigLoad.err.isSome then
      ⟨.error "failed to load AgentConfig, NMStateConfig, or InstallConfig", [], logs⟩
    else
      match inp.agentConfigLoad.value, inp.manifestsLoad.value with
      | some cfg, some mans =>
        finishConstruction ctx ⟨cfg, mans.nmStateConfigs⟩
          (resolver cfg mans.nmStateConfigs) inp.installConfigLoad.value logs
      | none, some mans =>
        finishConstruction ctx ⟨emptyAgentConfig, mans.nmStateConfigs⟩
          (resolver emptyAgentConfig mans.nmStateConfigs) inp.installConfigLoad.value logs
      | some cfg, none =>
        finishConstruction ctx ⟨cfg, emptyNMStateConfigs⟩
          (resolver cfg emptyNMStateConfigs) inp.installConfigLoad.value logs
      | none, none =>
        ⟨.error "both AgentConfig and NMStateConfig are empty", [], logs⟩

/-- A cluster entry of the remote listing; `id` is a `strfmt.UUID` pointer. -/
structure Cluster where
  id : Option UUID
deriving DecidableEq

/-- An infra-environment entry of the remote listing. -/
structure InfraEnv where
  id : Option UUID
deriving DecidableEq

/-- One install-progress event record. -/
structure Event where
  message : String
deriving DecidableEq

/-- Outcome of `IsRestAPILive`: the boolean, the number of remote listing
calls issued, and the receiver after the call. -/
structure LiveResult where
  live : Bool
  calls : Nat
  rest : NodeZeroRestClient
deriving DecidableEq

/-- `IsRestAPILive`: issue one `ListInfraEnvs` call; false on any error,
true otherwise.  Never returns an error. -/
def IsRestAPILive (rest : NodeZeroRestClient)
    (listing : Except String (List InfraEnv)) : LiveResult :=
  match listing with
  | .error _ => ⟨false, 1, rest⟩
  | .ok _ => ⟨true, 1, rest⟩

/-- `GetRestAPIServiceBaseURL`: returns `rest.config.URL`; pure, no I/O. -/
def GetRestAPIServiceBaseURL (rest : NodeZeroRestClient) : Option URL :=
  rest.config.url

/-- Outcome of `GetInfraEnvEvents`: the Go `(EventList, error)` pair, the
number of remote calls issued, and the receiver after the call. -/
structure EventsResult where
  events : Option (List Event)
  err : Option String
  calls : Nat
  rest : NodeZeroRestClient
deriving DecidableEq

/-- `GetInfraEnvEvents`: issue one `V2ListEvents` call for the given
infra-environment ID; on error return `(nil, err)`, on success return the
payload unmodified with a nil error. -/
def GetInfraEnvEvents (rest : NodeZeroRestClient) (infraEnvID : Option UUID)
    (listing : Except String (List Event)) : EventsResult :=
  match infraEnvID, listing with
  | _, .error e => ⟨none, some e, 1, rest⟩
  | _, .ok payload => ⟨some payload, none, 1, rest⟩

/-- Outcome of an identity lookup: the Go `(id, error)` pair, the diagnostic
lines emitted, the number of remote calls issued, and the receiver. -/
structure LookupResult where
  id : Option UUID
  err : Option String
  logs : List LogEntry
  calls : Nat
  rest : NodeZeroRestClient
deriving DecidableEq

/-- `getClusterID`: issue one `V2ListClusters` call; propagate its error;
else return the single entry's ID, or `(nil, nil)` with a debug line when
the list is empty, or `(nil, nil)` with an informational line citing the
count when it has two or more entries. -/
def getClusterID (rest : NodeZeroRestClient)
    (listing : Except String (List Cluster)) : LookupResult :=
  match listing with
  | .error e => ⟨none, some e, [], 1, rest⟩
  | .ok clusterList =>
    if h : clusterList.length = 1 then
      ⟨(clusterList.get ⟨0, by omega⟩).id, none, [], 1, rest⟩
    else if clusterList.length = 0 then
      ⟨none, none, [⟨.debug, "cluster is not registered in rest API"⟩], 1, rest⟩
    else
      ⟨none, none,
        [⟨.info, "found too many clusters. number of clusters found: "
            ++ toString clusterList.length⟩], 1, rest⟩

/-- `getClusterInfraEnvID`: identical three-way policy over the
`ListInfraEnvs` listing. -/
def getClusterInfraEnvID (rest : NodeZeroRestClient)
    (listing : Except String (List InfraEnv)) : LookupResult :=
  match listing with
  | .error e => ⟨none, some e, [], 1, rest⟩
  | .ok infraEnvList =>
    if h : infraEnvList.length = 1 then
      ⟨(infraEnvList.get ⟨0, by omega⟩).id, none, [], 1, rest⟩
    else if infraEnvList.length = 0 then
      ⟨none, none, [⟨.debug, "infraenv is not registered in rest API"⟩], 1, rest⟩
    else
      ⟨none, none,
        [⟨.info, "found too many infraenvs. number of infraenvs found: "
            ++ toString infraEnvList.length⟩], 1, rest⟩

/-- A concrete client instance used to instantiate universally quantified
statements on concrete inputs. -/
def wClient : NodeZeroRestClient :=
  ⟨⟨some ⟨"http", "10.0.0.5:8090", DefaultBasePath⟩⟩, (),
   ⟨some ⟨"http", "10.0.0.5:8090", DefaultBasePath⟩⟩, "10.0.0.5", []⟩

/-- C1: both identity lookups follow the one/zero/many policy: on a
one-entry listing they return that entry's identifier with no error, on a
zero-entry listing `(nil, nil)` with no error, and on a two-or-more-entry
listing `(nil, nil)` with no error; each lookup depends only on its own
listing, so the two behave this way independently. -/
theorem identity_lookup_three_way (rest rest2 : NodeZeroRestClient)
    (cs : List Cluster) (ies : List InfraEnv) :
    (∀ c, cs = [c] →
      (getClusterID rest (.ok cs)).id = c.id ∧ (getClusterID rest (.ok cs)).err = none)
    ∧ (cs = [] →
      (getClusterID rest (.ok cs)).id = none ∧ (getClusterID rest (.ok cs)).err = none)
    ∧ (2 ≤ cs.length →
      (getClusterID rest (.ok cs)).id = none ∧ (getClusterID rest (.ok cs)).err = none)
    ∧ (∀ e, ies = [e] →
      (getClusterInfraEnvID rest2 (.ok ies)).id = e.id
        ∧ (getClusterInfraEnvID rest2 (.ok ies)).err = none)
    ∧ (ies = [] →
      (getClusterInfraEnvID rest2 (.ok ies)).id = none
        ∧ (getClusterInfraEnvID rest2 (.ok ies)).err = none)
    ∧ (2 ≤ ies.length →
      (getClusterInfraEnvID rest2 (.ok ies)).id = none
        ∧ (getClusterInfraEnvID rest2 (.ok ies)).err = none) := by
  refine ⟨?_, ?_, ?_, ?_, ?_, ?_⟩
  · rintro c rfl
    simp [getClusterID]
  · rintro rfl
    simp [getClusterID]
  · intro h2
    have h1 : ¬ cs.length = 1 := by omega
    have h0 : ¬ cs.length = 0 := by omega
    simp [getClusterID, h1, h0]
  · rintro e rfl
    simp [getClusterInfraEnvID]
  · rintro rfl
    simp [getClusterInfraEnvID]
  · intro h2
    have h1 : ¬ ies.length = 1 := by omega
    have h0 : ¬ ies.length = 0 := by omega
    simp [getClusterInfraEnvID, h1, h0]

/-- Witness for C1 at concrete listings: a one-entry cluster listing yields
its ID, an empty infra-env listing yields `(nil, nil)`. -/
theorem identity_lookup_three_way_witness :
    ((getClusterID wClient (.ok [⟨some "id-1"⟩])).id = some "id-1"
      ∧ (getClusterID wClient (.ok [⟨some "id-1"⟩])).err = none)
    ∧ ((getClusterInfraEnvID wClient (.ok [])).id = none
      ∧ (getClusterInfraEnvID wClient (.ok [])).err = none) := by
  have h := identity_lookup_three_way wClient wClient [⟨some "id-1"⟩] []
  exact ⟨h.1 ⟨some "id-1"⟩ rfl, h.2.2.2.2.1 rfl⟩

/-- C4: the liveness probe issues exactly one listing call, returns a bare
boolean (its result carries no error channel), true when the listing call
succeeds and false on any error. -/
theorem isRestAPILive_policy (rest : NodeZeroRestClient)
    (listing : Except String (List InfraEnv)) :
    (IsRestAPILive rest listing).calls = 1
    ∧ (∀ l, listing = .ok l → (IsRestAPILive rest listing).live = true)
    ∧ (∀ e, listing = .error e → (IsRestAPILive rest listing).live = false) := by
  refine ⟨?_, ?_, ?_⟩
  · cases listing <;> rfl
  · rintro l rfl
    rfl
  · rintro e rfl
    rfl

/-- Witness for C4 at concrete listings: an error outcome gives false, a
success outcome gives true, each with one call issued. -/
theorem isRestAPILive_policy_witness :
    (IsRestAPILive wClient (.error "connection refused")).calls = 1
    ∧ (IsRestAPILive wClient (.error "connection refused")).live = false
    ∧ (IsRestAPILive wClient (.ok [])).live = true := by
  have h1 := isRestAPILive_policy wClient (.error "connection refused")
  have h2 := isRestAPILive_policy wClient (.ok [])
  exact ⟨h1.1, h1.2.2 "connection refused" rfl, h2.2.1 [] rfl⟩

/-- C6: event retrieval returns the underlying call's error unmodified with
a nil list when it fails, and on success the payload unmodified (including
empty payloads) with a nil error. -/
theorem getInfraEnvEvents_propagation (rest : NodeZeroRestClient)
    (infraEnvID : Option UUID) (listing : Except String (List Event)) :
    (∀ e, listing = .error e →
      (GetInfraEnvEvents rest infraEnvID listing).events = none
        ∧ (GetInfraEnvEvents rest infraEnvID listing).err = some e)
    ∧ (∀ payload, listing = .ok payload →
      (GetInfraEnvEvents rest infraEnvID listing).events = some payload
        ∧ (GetInfraEnvEvents rest infraEnvID listing).err = none) := by
  refine ⟨?_, ?_⟩
  · rintro e rfl
    exact ⟨rfl, rfl⟩
  · rintro payload rfl
    exact ⟨rfl, rfl⟩

/-- Witness for C6 at concrete outcomes: a transport error is propagated
verbatim with a nil list; an empty payload is returned unmodified. -/
theorem getInfraEnvEvents_propagation_witness :
    ((GetInfraEnvEvents wClient (some "ie-1") (.error "timeout")).events = none
      ∧ (GetInfraEnvEvents wClient (some "ie-1") (.error "timeout")).err = some "timeout")
    ∧ ((GetInfraEnvEvents wClient (some "ie-1") (.ok [])).events = some []
      ∧ (GetInfraEnvEvents wClient (some "ie-1") (.ok [])).err = none) := by
  have h1 := getInfraEnvEvents_propagation wClient (some "ie-1") (.error "timeout")
  have h2 := getInfraEnvEvents_propagation wClient (some "ie-1") (.ok [])
  exact ⟨h1.1 "timeout" rfl, h2.2 [] rfl⟩

/-- C8 counterexample: on a zero-entry cluster listing the lookup does emit
a diagnostic log entry (a debug line), refuting the claim that no diagnostic
is emitted in the zero-entry case. -/
theorem getClusterID_zero_case_emits_diagnostic :
    (getClusterID wClient (.ok [])).logs
        = [⟨.debug, "cluster is not registered in rest API"⟩]
    ∧ (getClusterID wClient (.ok [])).logs ≠ [] := by
  exact ⟨rfl, by simp [getClusterID]⟩

/-- C8 amended: the informational line citing the count is emitted only in
the two-or-more-entries case; the zero-entry case emits one debug-level
line; the one-entry case and the error case emit no diagnostic. -/
theorem getClusterID_diagnostics (rest : NodeZeroRestClient)
    (cs : List Cluster) (e : String) :
    (cs.length = 1 → (getClusterID rest (.ok cs)).logs = [])
    ∧ (cs = [] → (getClusterID rest (.ok cs)).logs
        = [⟨.debug, "cluster is not registered in rest API"⟩])
    ∧ (2 ≤ cs.length → (getClusterID rest (.ok cs)).logs
        = [⟨.info, "found too many clusters. number of clusters found: "
            ++ toString cs.length⟩])
    ∧ (getClusterID rest (.error e)).logs = []
    ∧ (∀ entry, entry ∈ (getClusterID rest (.ok cs)).logs →
        entry.level = .info → 2 ≤ cs.length) := by
  refine ⟨?_, ?_, ?_, rfl, ?_⟩
  · intro h1
    simp [getClusterID, h1]
  · rintro rfl
    simp [getClusterID]
  · intro h2
    have h1 : ¬ cs.length = 1 := by omega
    have h0 : ¬ cs.length = 0 := by omega
    simp [getClusterID, h1, h0]
  · intro entry hmem hlevel
    by_contra hlt
    have : cs.length = 0 ∨ cs.length = 1 := by omega
    rcases this with h0 | h1
    · rw [List.length_eq_zero] at h0
      subst h0
      simp [getClusterID] at hmem
      rw [hmem] at hlevel
      exact LogLevel.noConfusion hlevel
    · simp [getClusterID, h1] at hmem

/-- Witness for C8 amended at concrete listings: one entry gives no
diagnostic, two entries give the informational line citing count 2. -/
theorem getClusterID_diagnostics_witness :
    (getClusterID wClient (.ok [⟨some "id-1"⟩])).logs = []
    ∧ (getClusterID wClient (.ok [⟨some "id-1"⟩, ⟨some "id-2"⟩])).logs
        = [⟨.info, "found too many clusters. number of clusters found: 2"⟩] := by
  have h1 := getClusterID_diagnostics wClient [⟨some "id-1"⟩] "e"
  have h2 := getClusterID_diagnostics wClient [⟨some "id-1"⟩, ⟨some "id-2"⟩] "e"
  exact ⟨h1.1 rfl, h2.2.2.1 (by decide)⟩

/-- C9: no operation mutates any field of the client set at construction:
in the embedding each method returns the receiver unchanged whether the
remote call succeeded or failed, and a lookup on the receiver returned by a
failed call behaves exactly as on the original client. -/
theorem client_fields_immutable (rest : NodeZeroRestClient)
    (ies : Except String (List InfraEnv)) (cs : Except String (List Cluster))
    (evs : Except String (List Event)) (i : Option UUID) (e : String) :
    (IsRestAPILive rest ies).rest = rest
    ∧ (GetInfraEnvEvents rest i evs).rest = rest
    ∧ (getClusterID rest cs).rest = rest
    ∧ (getClusterInfraEnvID rest ies).rest = rest
    ∧ GetRestAPIServiceBaseURL rest = rest.config.url
    ∧ getClusterID ((getClusterID rest (.error e)).rest) cs = getClusterID rest cs := by
  refine ⟨?_, ?_, ?_, ?_, rfl, rfl⟩
  · cases ies <;> rfl
  · cases evs <;> rfl
  · rcases cs with e | l
    · rfl
    · by_cases h1 : l.length = 1 <;> by_cases h0 : l.length = 0 <;>
        simp [getClusterID, h1, h0]
  · rcases ies with e | l
    · rfl
    · by_cases h1 : l.length = 1 <;> by_cases h0 : l.length = 0 <;>
        simp [getClusterInfraEnvID, h1, h0]

/-- C10: a one-entry listing whose entry has a nil ID yields `(nil, nil)`
from both lookups — the same `(id, err)` outcome as the zero-entry and the
many-entry cases, so the caller cannot tell them apart from the returned
values. -/
theorem nil_id_singleton_indistinguishable (rest : NodeZeroRestClient)
    (c c1 c2 : Cluster) (e e1 e2 : InfraEnv)
    (hc : c.id = none) (he : e.id = none) :
    ((getClusterID rest (.ok [c])).id = none
      ∧ (getClusterID rest (.ok [c])).err = none)
    ∧ ((getClusterID rest (.ok [c])).id = (getClusterID rest (.ok [])).id
      ∧ (getClusterID rest (.ok [c])).err = (getClusterID rest (.ok [])).err)
    ∧ ((getClusterID rest (.ok [c])).id = (getClusterID rest (.ok [c1, c2])).id
      ∧ (getClusterID rest (.ok [c])).err = (getClusterID rest (.ok [c1, c2])).err)
    ∧ ((getClusterInfraEnvID rest (.ok [e])).id = none
      ∧ (getClusterInfraEnvID rest (.ok [e])).err = none)
    ∧ ((getClusterInfraEnvID rest (.ok [e])).id = (getClusterInfraEnvID rest (.ok [])).id
      ∧ (getClusterInfraEnvID rest (.ok [e])).err
          = (getClusterInfraEnvID rest (.ok [])).err)
    ∧ ((getClusterInfraEnvID rest (.ok [e])).id
          = (getClusterInfraEnvID rest (.ok [e1, e2])).id
      ∧ (getClusterInfraEnvID rest (.ok [e])).err
          = (getClusterInfraEnvID rest (.ok [e1, e2])).err) := by
  have hcid : (getClusterID rest (.ok [c])).id = none := by
    simp [getClusterID, hc]
  have heid : (getClusterInfraEnvID rest (.ok [e])).id = none := by
    simp [getClusterInfraEnvID, he]
  refine ⟨⟨hcid, rfl⟩, ⟨?_, rfl⟩, ⟨?_, rfl⟩, ⟨heid, rfl⟩, ⟨?_, rfl⟩, ⟨?_, rfl⟩⟩
  · rw [hcid]
    simp [getClusterID]
  · rw [hcid]
    simp [getClusterID]
  · rw [heid]
    simp [getClusterInfraEnvID]
  · rw [heid]
    simp [getClusterInfraEnvID]

/-- Witness for C10 at a concrete nil-ID singleton listing. -/
theorem nil_id_singleton_indistinguishable_witness :
    ((getClusterID wClient (.ok [⟨none⟩])).id = none
      ∧ (getClusterID wClient (.ok [⟨none⟩])).err = none)
    ∧ ((getClusterInfraEnvID wClient (.ok [⟨none⟩])).id = none
      ∧ (getClusterInfraEnvID wClient (.ok [⟨none⟩])).err = none) := by
  have h := nil_id_singleton_indistinguishable wClient ⟨none⟩ ⟨some "a"⟩ ⟨some "b"⟩
    ⟨none⟩ ⟨some "a"⟩ ⟨some "b"⟩ rfl rfl
  exact ⟨h.1, h.2.2.2.1⟩

/-- The resolver invocation list of the constructor tail is always the
one-element list of the recorded call. -/
theorem finishConstruction_calls (ctx : Unit) (call : ResolverCall)
    (ipResult : Except String String) (installCfg : Option InstallConfig)
    (logs : List LogEntry) :
    (finishConstruction ctx call ipResult installCfg logs).resolverCalls = [call] := by
  cases ipResult <;> rfl

/-- Inversion of the constructor tail: a returned client means the resolver
result was `ok` with exactly the client's node-zero IP, and the client's
config, client handle and context have the constructed shape. -/
theorem finishConstruction_ok (ctx : Unit) (call : ResolverCall)
    (ipResult : Except String String) (installCfg : Option InstallConfig)
    (logs : List LogEntry) (c : NodeZeroRestClient)
    (h : (finishConstruction ctx call ipResult installCfg logs).result = .ok c) :
    ipResult = .ok c.nodeZeroIP
    ∧ c.config = ⟨some ⟨"http", joinHostPort c.nodeZeroIP "8090", DefaultBasePath⟩⟩
    ∧ c.client = c.config ∧ c.ctx = ctx := by
  rcases ipResult with e | ip
  · simp [finishConstruction] at h
  · simp only [finishConstruction, Except.ok.injEq] at h
    subst h
    exact ⟨rfl, rfl, rfl, rfl⟩

/-- C2: with the asset store created and all three loads error-free,
rendezvous resolution is attempted iff the agent config or the manifests
asset is present; whenever a client is returned the resolver was invoked
exactly once and produced exactly the one address stored as the client's
node-zero IP; and when neither asset is present, construction fails with
the configuration-missing error and no resolver call is made. -/
theorem construction_rendezvous_resolution (inp : NewClientInputs)
    (resolver : Resolver)
    (hs : inp.storeErr = none)
    (h1 : inp.agentConfigLoad.err = none) (h2 : inp.manifestsLoad.err = none)
    (h3 : inp.installConfigLoad.err = none) :
    ((NewNodeZeroRestClient () inp resolver).resolverCalls ≠ []
      ↔ (inp.agentConfigLoad.value.isSome = true
          ∨ inp.manifestsLoad.value.isSome = true))
    ∧ (∀ c, (NewNodeZeroRestClient () inp resolver).result = .ok c →
        ∃ call, (NewNodeZeroRestClient () inp resolver).resolverCalls = [call]
          ∧ resolver call.config call.nmConfigs = .ok c.nodeZeroIP)
    ∧ (inp.agentConfigLoad.value = none → inp.manifestsLoad.value = none →
        (NewNodeZeroRestClient () inp resolver).result
            = .error "both AgentConfig and NMStateConfig are empty"
          ∧ (NewNodeZeroRestClient () inp resolver).resolverCalls = []) := by
  rcases hA : inp.agentConfigLoad.value with _ | cfg <;>
    rcases hM : inp.manifestsLoad.value with _ | mans
  · refine ⟨?_, ?_, ?_⟩
    · simp [NewNodeZeroRestClient, hs, h1, h2, h3, hA, hM]
    · intro c hc
      simp [NewNodeZeroRestClient, hs, h1, h2, h3, hA, hM] at hc
    · intro _ _
      constructor <;> simp [NewNodeZeroRestClient, hs, h1, h2, h3, hA, hM]
  · refine ⟨?_, ?_, ?_⟩
    · simp [NewNodeZeroRestClient, hs, h1, h2, h3, hA, hM,
        finishConstruction_calls]
    · intro c hc
      simp only [NewNodeZeroRestClient, hs, h1, h2, h3, hA, hM] at hc ⊢
      refine ⟨⟨emptyAgentConfig, mans.nmStateConfigs⟩,
        finishConstruction_calls _ _ _ _ _, ?_⟩
      exact (finishConstruction_ok _ _ _ _ _ _ hc).1.symm ▸ rfl
    · intro _ hM2
      exact Option.noConfusion hM2
  · refine ⟨?_, ?_, ?_⟩
    · simp [NewNodeZeroRestClient, hs, h1, h2, h3, hA, hM,
        finishConstruction_calls]
    · intro c hc
      simp only [NewNodeZeroRestClient, hs, h1, h2, h3, hA, hM] at hc ⊢
      refine ⟨⟨cfg, emptyNMStateConfigs⟩,
        finishConstruction_calls _ _ _ _ _, ?_⟩
      exact (finishConstruction_ok _ _ _ _ _ _ hc).1.symm ▸ rfl
    · intro hA2 _
      exact Option.noConfusion hA2
  · refine ⟨?_, ?_, ?_⟩
    · simp [NewNodeZeroRestClient, hs, h1, h2, h3, hA, hM,
        finishConstruction_calls]
    · intro c hc
      simp only [NewNodeZeroRestClient, hs, h1, h2, h3, hA, hM] at hc ⊢
      refine ⟨⟨cfg, mans.nmStateConfigs⟩,
        finishConstruction_calls _ _ _ _ _, ?_⟩
      exact (finishConstruction_ok _ _ _ _ _ _ hc).1.symm ▸ rfl
    · intro hA2 _
      exact Option.noConfusion hA2

/-- Concrete construction inputs with all three assets present and
error-free loads. -/
def wInputs : NewClientInputs :=
  ⟨none, ⟨some ⟨"10.0.0.5"⟩, none⟩, ⟨some ⟨[⟨"host0"⟩, ⟨"host1"⟩]⟩, none⟩,
   ⟨some ⟨"ssh-rsa AAAA"⟩, none⟩⟩

/-- Concrete construction inputs with both the agent config and the
manifests absent (loaded as nil without error). -/
def wNeitherInputs : NewClientInputs :=
  ⟨none, ⟨none, none⟩, ⟨none, none⟩, ⟨some ⟨"ssh-rsa AAAA"⟩, none⟩⟩

/-- A concrete resolver: returns the pinned rendezvous IP of the agent
config. -/
def wResolver : Resolver := fun cfg _ => .ok cfg.rendezvousIP

/-- Witness for C2 at concrete inputs: with the agent config present the
resolver is invoked; with both assets absent construction fails with the
configuration-missing error. -/
theorem construction_rendezvous_resolution_witness :
    (NewNodeZeroRestClient () wInputs wResolver).resolverCalls ≠ []
    ∧ (NewNodeZeroRestClient () wNeitherInputs wResolver).result
        = .error "both AgentConfig and NMStateConfig are empty" := by
  have h := construction_rendezvous_resolution wInputs wResolver rfl rfl rfl rfl
  have h2 := construction_rendezvous_resolution wNeitherInputs wResolver rfl rfl rfl rfl
  exact ⟨h.1.mpr (Or.inl rfl), (h2.2.2 rfl rfl).1⟩

/-- C3: precedence of rendezvous resolution under error-free loads: with
both assets present the resolver is called on the agent config and the
manifests' NMStateConfigs; with only the manifests present it is called on
the empty agent config; with only the agent config present it is called on
the empty NMStateConfig set; and whenever construction succeeds the
resolver was invoked exactly once. -/
theorem construction_resolver_precedence (inp : NewClientInputs)
    (resolver : Resolver)
    (hs : inp.storeErr = none)
    (h1 : inp.agentConfigLoad.err = none) (h2 : inp.manifestsLoad.err = none)
    (h3 : inp.installConfigLoad.err = none) :
    (∀ cfg mans, inp.agentConfigLoad.value = some cfg →
      inp.manifestsLoad.value = some mans →
      (NewNodeZeroRestClient () inp resolver).resolverCalls
        = [⟨cfg, mans.nmStateConfigs⟩])
    ∧ (∀ mans, inp.agentConfigLoad.value = none →
      inp.manifestsLoad.value = some mans →
      (NewNodeZeroRestClient () inp resolver).resolverCalls
        = [⟨emptyAgentConfig, mans.nmStateConfigs⟩])
    ∧ (∀ cfg, inp.agentConfigLoad.value = some cfg →
      inp.manifestsLoad.value = none →
      (NewNodeZeroRestClient () inp resolver).resolverCalls
        = [⟨cfg, emptyNMStateConfigs⟩])
    ∧ (∀ c, (NewNodeZeroRestClient () inp resolver).result = .ok c →
      (NewNodeZeroRestClient () inp resolver).resolverCalls.length = 1) := by
  refine ⟨?_, ?_, ?_, ?_⟩
  · intro cfg mans hA hM
    simp [NewNodeZeroRestClient, hs, h1, h2, h3, hA, hM, finishConstruction_calls]
  · intro mans hA hM
    simp [NewNodeZeroRestClient, hs, h1, h2, h3, hA, hM, finishConstruction_calls]
  · intro cfg hA hM
    simp [NewNodeZeroRestClient, hs, h1, h2, h3, hA, hM, finishConstruction_calls]
  · intro c hc
    rcases hA : inp.agentConfigLoad.value with _ | cfg <;>
      rcases hM : inp.manifestsLoad.value with _ | mans
    · simp [NewNodeZeroRestClient, hs, h1, h2, h3, hA, hM] at hc
    · simp [NewNodeZeroRestClient, hs, h1, h2, h3, hA, hM, finishConstruction_calls]
    · simp [NewNodeZeroRestClient, hs, h1, h2, h3, hA, hM, finishConstruction_calls]
    · simp [NewNodeZeroRestClient, hs, h1, h2, h3, hA, hM, finishConstruction_calls]

/-- Witness for C3 at concrete inputs: with both assets present the single
resolver call carries the loaded agent config and the loaded NMStateConfig
declarations. -/
theorem construction_resolver_precedence_witness :
    (NewNodeZeroRestClient () wInputs wResolver).resolverCalls
      = [⟨⟨"10.0.0.5"⟩, [⟨"host0"⟩, ⟨"host1"⟩]⟩] := by
  have h := construction_resolver_precedence wInputs wResolver rfl rfl rfl rfl
  exact h.1 ⟨"10.0.0.5"⟩ ⟨[⟨"host0"⟩, ⟨"host1"⟩]⟩ rfl rfl

/-- Concrete construction inputs where only the install-config load fails
and both other loads succeed with their assets present. -/
def failingInstallConfigInputs : NewClientInputs :=
  ⟨none, ⟨some ⟨"10.0.0.5"⟩, none⟩, ⟨some ⟨[⟨"host0"⟩]⟩, none⟩,
   ⟨none, some "open install-config.yaml: permission denied"⟩⟩

/-- C5 counterexample: a load failure on the install-config asset alone
aborts `NewNodeZeroRestClient` with the combined load-failure error before
any resolver call, refuting the claim that a single load failure does not
by itself abort construction. -/
theorem construction_aborts_on_single_load_failure :
    (NewNodeZeroRestClient () failingInstallConfigInputs wResolver).result
        = .error "failed to load AgentConfig, NMStateConfig, or InstallConfig"
    ∧ (NewNodeZeroRestClient () failingInstallConfigInputs wResolver).resolverCalls
        = [] :=
  ⟨rfl, rfl⟩

/-- C5 amended: all three asset loads are attempted and each failure is
logged regardless of the other loads' outcomes, and construction tolerates
any asset being absent (nil value without error) — but any load error on
any of the three aborts construction with the combined load-failure
error. -/
theorem construction_load_tolerance (inp : NewClientInputs)
    (resolver : Resolver) (hs : inp.storeErr = none) :
    (∀ e, inp.agentConfigLoad.err = some e →
      LogEntry.mk .debug ("failed to load Agent Config: " ++ e)
        ∈ (NewNodeZeroRestClient () inp resolver).logs)
    ∧ (∀ e, inp.manifestsLoad.err = some e →
      LogEntry.mk .debug ("failed to load Agent Manifests: " ++ e)
        ∈ (NewNodeZeroRestClient () inp resolver).logs)
    ∧ (∀ e, inp.installConfigLoad.err = some e →
      LogEntry.mk .debug ("failed to load Install Config: " ++ e)
        ∈ (NewNodeZeroRestClient () inp resolver).logs)
    ∧ ((inp.agentConfigLoad.err.isSome || inp.manifestsLoad.err.isSome
          || inp.installConfigLoad.err.isSome) = true →
      (NewNodeZeroRestClient () inp resolver).result
        = .error "failed to load AgentConfig, NMStateConfig, or InstallConfig")
    ∧ (inp.agentConfigLoad.err = none → inp.manifestsLoad.err = none →
        inp.installConfigLoad.err = none →
        (inp.agentConfigLoad.value.isSome || inp.manifestsLoad.value.isSome) = true →
        (NewNodeZeroRestClient () inp resolver).resolverCalls ≠ [])
    ∧ (∀ cfg ip, inp.agentConfigLoad.err = none → inp.manifestsLoad.err = none →
        inp.installConfigLoad.err = none →
        inp.agentConfigLoad.value = some cfg → inp.manifestsLoad.value = none →
        inp.installConfigLoad.value = none →
        resolver cfg emptyNMStateConfigs = .ok ip →
        ∃ c, (NewNodeZeroRestClient () inp resolver).result = .ok c) := by
  have hlogs : (NewNodeZeroRestClient () inp resolver).logs = loadFailureLogs inp := by
    unfold NewNodeZeroRestClient
    rw [hs]
    dsimp only
    split
    · rfl
    · split <;> first
        | rfl
        | (rename_i hmatch
           cases hres : resolver _ _ <;> simp [finishConstruction, hres])
  refine ⟨?_, ?_, ?_, ?_, ?_, ?_⟩
  · intro e he
    rw [hlogs]
    simp [loadFailureLogs, he]
  · intro e he
    rw [hlogs]
    simp [loadFailureLogs, he]
  · intro e he
    rw [hlogs]
    simp [loadFailureLogs, he]
  · intro hb
    unfold NewNodeZeroRestClient
    rw [hs]
    simp [hb]
  · intro h1 h2 h3 hpres
    rcases hA : inp.agentConfigLoad.value with _ | cfg <;>
      rcases hM : inp.manifestsLoad.value with _ | mans
    · rw [hA, hM] at hpres
      simp at hpres
    · simp [NewNodeZeroRestClient, hs, h1, h2, h3, hA, hM, finishConstruction_calls]
    · simp [NewNodeZeroRestClient, hs, h1, h2, h3, hA, hM, finishConstruction_calls]
    · simp [NewNodeZeroRestClient, hs, h1, h2, h3, hA, hM, finishConstruction_calls]
  · intro cfg ip h1 h2 h3 hA hM hI hres
    have heq : (NewNodeZeroRestClient () inp resolver).result
        = (finishConstruction () ⟨cfg, emptyNMStateConfigs⟩
            (resolver cfg emptyNMStateConfigs) inp.installConfigLoad.value
            (loadFailureLogs inp)).result := by
      simp [NewNodeZeroRestClient, hs, h1, h2, h3, hA, hM]
    rw [heq, hres, hI]
    exact ⟨_, rfl⟩

/-- Witness for C5 amended at concrete inputs: the failing install-config
load is logged, construction aborts with the combined error, and on the
error-free inputs the resolver is invoked. -/
theorem construction_load_tolerance_witness :
    LogEntry.mk .debug
        ("failed to load Install Config: open install-config.yaml: permission denied")
      ∈ (NewNodeZeroRestClient () failingInstallConfigInputs wResolver).logs
    ∧ (NewNodeZeroRestClient () failingInstallConfigInputs wResolver).result
        = .error "failed to load AgentConfig, NMStateConfig, or InstallConfig"
    ∧ (NewNodeZeroRestClient () wInputs wResolver).resolverCalls ≠ [] := by
  have h := construction_load_tolerance failingInstallConfigInputs wResolver rfl
  have h2 := construction_load_tolerance wInputs wResolver rfl
  exact ⟨h.2.2.1 "open install-config.yaml: permission denied" rfl,
    h.2.2.2.1 rfl, h2.2.2.2.2.1 rfl rfl rfl rfl⟩

/-- The receiver is returned unchanged by the liveness probe. -/
theorem isRestAPILive_rest (rest : NodeZeroRestClient)
    (l : Except String (List InfraEnv)) : (IsRestAPILive rest l).rest = rest := by
  cases l <;> rfl

/-- The receiver is returned unchanged by event retrieval. -/
theorem getInfraEnvEvents_rest (rest : NodeZeroRestClient) (i : Option UUID)
    (l : Except String (List Event)) : (GetInfraEnvEvents rest i l).rest = rest := by
  cases l <;> rfl

/-- The receiver is returned unchanged by the cluster lookup. -/
theorem getClusterID_rest (rest : NodeZeroRestClient)
    (l : Except String (List Cluster)) : (getClusterID rest l).rest = rest := by
  rcases l with e | cs
  · rfl
  · by_cases h1 : cs.length = 1 <;> by_cases h0 : cs.length = 0 <;>
      simp [getClusterID, h1, h0]

/-- The receiver is returned unchanged by the infra-env lookup. -/
theorem getClusterInfraEnvID_rest (rest : NodeZeroRestClient)
    (l : Except String (List InfraEnv)) : (getClusterInfraEnvID rest l).rest = rest := by
  rcases l with e | ies
  · rfl
  · by_cases h1 : ies.length = 1 <;> by_cases h0 : ies.length = 0 <;>
      simp [getClusterInfraEnvID, h1, h0]

/-- C7: on successful construction the client's endpoint is exactly
scheme "http", the resolved address joined with port 8090, and the fixed
API base path; the bound client handle is built from that same config; and
the endpoint accessor returns that value unchanged across calls — also on
the receiver returned by any other operation, which never modifies it. -/
theorem endpoint_shape_and_stability (inp : NewClientInputs)
    (resolver : Resolver) (c : NodeZeroRestClient)
    (h : (NewNodeZeroRestClient () inp resolver).result = .ok c) :
    c.config.url = some ⟨"http", joinHostPort c.nodeZeroIP "8090", DefaultBasePath⟩
    ∧ GetRestAPIServiceBaseURL c = c.config.url
    ∧ c.client = c.config
    ∧ (∀ l, GetRestAPIServiceBaseURL (IsRestAPILive c l).rest
        = GetRestAPIServiceBaseURL c)
    ∧ (∀ i l, GetRestAPIServiceBaseURL (GetInfraEnvEvents c i l).rest
        = GetRestAPIServiceBaseURL c)
    ∧ (∀ l, GetRestAPIServiceBaseURL (getClusterID c l).rest
        = GetRestAPIServiceBaseURL c)
    ∧ (∀ l, GetRestAPIServiceBaseURL (getClusterInfraEnvID c l).rest
        = GetRestAPIServiceBaseURL c) := by
  have hshape : c.config
        = ⟨some ⟨"http", joinHostPort c.nodeZeroIP "8090", DefaultBasePath⟩⟩
      ∧ c.client = c.config := by
    rcases hS : inp.storeErr with _ | e
    · by_cases hb : (inp.agentConfigLoad.err.isSome || inp.manifestsLoad.err.isSome
          || inp.installConfigLoad.err.isSome) = true
      · exfalso
        simp [NewNodeZeroRestClient, hS, hb] at h
      · rw [Bool.not_eq_true] at hb
        rcases hA : inp.agentConfigLoad.value with _ | cfg <;>
          rcases hM : inp.manifestsLoad.value with _ | mans
        · exfalso
          simp [NewNodeZeroRestClient, hS, hb, hA, hM] at h
        · simp only [NewNodeZeroRestClient, hS, hb, hA, hM] at h
          simp only [Bool.false_eq_true, if_false] at h
          exact ⟨(finishConstruction_ok _ _ _ _ _ _ h).2.1,
            (finishConstruction_ok _ _ _ _ _ _ h).2.2.1⟩
        · simp only [NewNodeZeroRestClient, hS, hb, hA, hM] at h
          simp only [Bool.false_eq_true, if_false] at h
          exact ⟨(finishConstruction_ok _ _ _ _ _ _ h).2.1,
            (finishConstruction_ok _ _ _ _ _ _ h).2.2.1⟩
        · simp only [NewNodeZeroRestClient, hS, hb, hA, hM] at h
          simp only [Bool.false_eq_true, if_false] at h
          exact ⟨(finishConstruction_ok _ _ _ _ _ _ h).2.1,
            (finishConstruction_ok _ _ _ _ _ _ h).2.2.1⟩
    · exfalso
      simp [NewNodeZeroRestClient, hS] at h
  refine ⟨by rw [hshape.1], rfl, hshape.2, ?_, ?_, ?_, ?_⟩
  · intro l
    rw [isRestAPILive_rest]
  · intro i l
    rw [getInfraEnvEvents_rest]
  · intro l
    rw [getClusterID_rest]
  · intro l
    rw [getClusterInfraEnvID_rest]

/-- The client produced by construction on the concrete inputs. -/
def wConstructedClient : NodeZeroRestClient :=
  ⟨⟨some ⟨"http", "10.0.0.5:8090", DefaultBasePath⟩⟩, (),
   ⟨some ⟨"http", "10.0.0.5:8090", DefaultBasePath⟩⟩, "10.0.0.5", ["ssh-rsa AAAA"]⟩

/-- Witness for C7 at the concrete construction: the accessor returns the
endpoint of the constructed shape. -/
theorem endpoint_shape_and_stability_witness :
    GetRestAPIServiceBaseURL wConstructedClient
      = some ⟨"http", joinHostPort wConstructedClient.nodeZeroIP "8090",
          DefaultBasePath⟩ := by
  have h := endpoint_shape_and_stability wInputs wResolver wConstructedClient (by rfl)
  exact h.2.1.trans h.1

end AgentClient
